import Mathlib

/-!
Verification of the inference-optimization notebooks.

Each definition below is a shallow embedding of a cell of one of the four
notebooks (the asynchronous-inference notebook, the feature-store notebook,
the batch-transform notebook, and the inference-pipeline notebook).
Python strings are embedded as `List Char`; remote services are oracles
passed as function arguments; exceptions are explicit constructors.
-/

namespace AsyncInference

/-- Result of one `sm_session.read_s3_file(bucket, key_prefix)` attempt:
either the object's contents, or a `ClientError` carrying an error code. -/
inductive ReadResult where
  | ok (contents : List Char)
  | err (code : List Char)
deriving DecidableEq, Repr

/-- How a call of `get_output` ends: it returns the contents read, or
re-raises a `ClientError` with the given code.  `slept` records the total
seconds spent in `time.sleep(2)` calls before that point. -/
inductive Outcome where
  | returns (contents : List Char) (slept : Nat)
  | raises (code : List Char) (slept : Nat)
deriving DecidableEq, Repr

/-- Shallow embedding of the `while True:` loop of `get_output` in the
asynchronous-inference notebook.  `reads n` is the outcome of the n-th
`read_s3_file` attempt on the parsed output location; `i` is the index of
the next attempt and `slept` the seconds slept so far.  Each iteration
tries the read: on success the contents are returned; on a `ClientError`
whose code is `"NoSuchKey"` the loop sleeps 2 seconds and continues;
any other `ClientError` is re-raised.  `fuel` bounds the number of
iterations we unfold; `none` means the loop has not terminated within
`fuel` iterations. -/
def get_output_loop (reads : Nat → ReadResult) : Nat → Nat → Nat → Option Outcome
  | 0, _, _ => none
  | fuel + 1, i, slept =>
    match reads i with
    | .ok s => some (.returns s slept)
    | .err c =>
      if c = "NoSuchKey".data then get_output_loop reads fuel (i + 1) (slept + 2)
      else some (.raises c slept)

/-- `get_output` as called: the loop started at attempt 0 with no sleep yet. -/
def get_output (reads : Nat → ReadResult) (fuel : Nat) : Option Outcome :=
  get_output_loop reads fuel 0 0

theorem get_output_loop_step (reads : Nat → ReadResult) (fuel i slept : Nat)
    (h : reads i = .err "NoSuchKey".data) :
    get_output_loop reads (fuel + 1) i slept = get_output_loop reads fuel (i + 1) (slept + 2) := by
  simp [get_output_loop, h]

theorem get_output_loop_ok (reads : Nat → ReadResult) (fuel i slept : Nat)
    (s : List Char) (h : reads i = .ok s) :
    get_output_loop reads (fuel + 1) i slept = some (.returns s slept) := by
  simp [get_output_loop, h]

theorem get_output_loop_raise (reads : Nat → ReadResult) (fuel i slept : Nat)
    (c : List Char) (h : reads i = .err c) (hc : c ≠ "NoSuchKey".data) :
    get_output_loop reads (fuel + 1) i slept = some (.raises c slept) := by
  simp [get_output_loop, h, hc]

/-- If the first `n` attempts all fail with `NoSuchKey`, the loop reaches
attempt `n` having slept 2 seconds per failed attempt. -/
theorem get_output_loop_skip (reads : Nat → ReadResult) (n : Nat)
    (hn : ∀ j, j < n → reads j = .err "NoSuchKey".data) (fuel : Nat) :
    get_output_loop reads (n + fuel) 0 0 = get_output_loop reads fuel n (2 * n) := by
  suffices h : ∀ k i slept, (∀ j, j < k → reads (i + j) = .err "NoSuchKey".data) →
      get_output_loop reads (k + fuel) i slept = get_output_loop reads fuel (i + k) (slept + 2 * k) by
    simpa using h n 0 0 (by simpa using hn)
  intro k
  induction k with
  | zero => intro i slept _; simp
  | succ m ih =>
    intro i slept hj
    have hstep : reads i = .err "NoSuchKey".data := by simpa using hj 0 (Nat.succ_pos m)
    have h1 : m + 1 + fuel = (m + fuel) + 1 := by omega
    rw [h1, get_output_loop_step reads (m + fuel) i slept hstep]
    have h2 := ih (i + 1) (slept + 2) (fun j hjm => by
      have := hj (j + 1) (by omega)
      simpa [Nat.add_assoc, Nat.add_comm 1 j] using this)
    rw [h2]
    have h3 : i + 1 + m = i + (m + 1) := by omega
    have h4 : slept + 2 + 2 * m = slept + 2 * (m + 1) := by omega
    rw [h3, h4]

/-- C1: on an output location whose first `n` read attempts fail with
`ClientError` code `"NoSuchKey"`, `get_output` catches each such error,
sleeps 2 seconds per retry (total `2 * n` seconds), and then: if attempt
`n` succeeds it returns that attempt's contents; if attempt `n` fails with
any other error code, that error is re-raised to the caller. -/
theorem get_output_polling_contract (reads : Nat → ReadResult) (n fuel : Nat)
    (hn : ∀ j, j < n → reads j = .err "NoSuchKey".data) :
    (∀ s, reads n = .ok s →
      get_output reads (n + (fuel + 1)) = some (.returns s (2 * n))) ∧
    (∀ c, reads n = .err c → c ≠ "NoSuchKey".data →
      get_output reads (n + (fuel + 1)) = some (.raises c (2 * n))) := by
  have hskip := get_output_loop_skip reads n hn (fuel + 1)
  constructor
  · intro s hs
    rw [get_output, hskip, get_output_loop_ok reads fuel n (2 * n) s hs]
  · intro c hc hne
    rw [get_output, hskip, get_output_loop_raise reads fuel n (2 * n) c hc hne]

theorem get_output_polling_contract_witness :
    get_output (fun j => if j < 2 then .err "NoSuchKey".data else .ok "42".data) 3
      = some (.returns "42".data 4) :=
  (get_output_polling_contract
      (fun j => if j < 2 then .err "NoSuchKey".data else .ok "42".data) 2 0
      (by decide)).1 "42".data (by decide)

/-- C2: `get_output` has no retry budget.  If every read attempt raises
`NoSuchKey`, the loop makes no progress for any amount of fuel (it never
terminates); conversely, whenever a run of `get_output` terminates, some
attempt was not a `NoSuchKey` error — i.e. a read succeeded or a
non-retryable error was raised. -/
theorem get_output_no_retry_budget (reads : Nat → ReadResult) :
    ((∀ j, reads j = .err "NoSuchKey".data) →
      ∀ fuel i slept, get_output_loop reads fuel i slept = none) ∧
    (∀ fuel o, get_output reads fuel = some o →
      ∃ m, reads m ≠ .err "NoSuchKey".data) := by
  have hdiv : (∀ j, reads j = .err "NoSuchKey".data) →
      ∀ fuel i slept, get_output_loop reads fuel i slept = none := by
    intro hall fuel
    induction fuel with
    | zero => intro i slept; rfl
    | succ m ih =>
      intro i slept
      rw [get_output_loop_step reads m i slept (hall i)]
      exact ih (i + 1) (slept + 2)
  refine ⟨hdiv, ?_⟩
  intro fuel o ho
  by_contra hnone
  push_neg at hnone
  have := hdiv hnone fuel 0 0
  rw [get_output] at ho
  rw [this] at ho
  exact Option.noConfusion ho

theorem get_output_no_retry_budget_witness :
    get_output (fun _ => ReadResult.err "NoSuchKey".data) 5 = none :=
  (get_output_no_retry_budget (fun _ => ReadResult.err "NoSuchKey".data)).1
    (fun _ => rfl) 5 0 0

end AsyncInference

namespace BatchTransform

/-- Embedding of `line = "[" + line.replace("[","").replace("]",",") + "]"`
from the result-download cell of the batch-transform notebook: every `'['`
character of the line is deleted, every `']'` is replaced by `','`
(`str.replace` with single-character patterns acts on each occurrence,
including occurrences inside JSON string contents), and the result is
wrapped in one pair of brackets. -/
def mangleLine (line : List Char) : List Char :=
  '[' :: ((line.filter (fun c => c ≠ '[')).map (fun c => if c = ']' then ',' else c)) ++ [']']

/-- Embedding of the result-download loop
`batch_transform_result = []; for line in f: ...; batch_transform_result = literal_eval(line)`:
each iteration rebinds `batch_transform_result` to the parse of the current
(mangled) line.  `literal_eval` abstracts Python's `ast.literal_eval`. -/
def batchResultLoop {α : Type} (literal_eval : List Char → α) (init : α)
    (lines : List (List Char)) : α :=
  lines.foldl (fun _ line => literal_eval (mangleLine line)) init

/-- C3: after the loop, `batch_transform_result` is the parse of the final
line only — every earlier line's result is overwritten — and the
line-mangling deletes `'['` and turns `']'` into `','` even inside string
contents, as the concrete mangled JSON line shows. -/
theorem batch_transform_result_is_last_line_only {α : Type}
    (literal_eval : List Char → α) (init : α)
    (front : List (List Char)) (last : List Char) :
    batchResultLoop literal_eval init (front ++ [last]) = literal_eval (mangleLine last) ∧
    mangleLine "\x7b\"label\": \"a[1]\"\x7d".data = "[\x7b\"label\": \"a1,\"\x7d]".data := by
  constructor
  · rw [batchResultLoop, List.foldl_append]
    rfl
  · decide

end BatchTransform

namespace JsonLines

/-- Lowercase hexadecimal digit, as used by Python's `json` escaping. -/
def hexDigit (n : Nat) : Char :=
  if n < 10 then Char.ofNat (48 + n) else Char.ofNat (87 + n)

/-- A `\uXXXX` escape for a 16-bit code unit. -/
def u16Escape (n : Nat) : List Char :=
  ['\\', 'u', hexDigit (n / 4096 % 16), hexDigit (n / 256 % 16),
    hexDigit (n / 16 % 16), hexDigit (n % 16)]

/-- Escaping of one character by Python's `json.dump` with its default
`ensure_ascii=True`: the two-character escapes for quote, backslash and
the common control characters, `\uXXXX` for other control characters and
all non-ASCII characters (surrogate pairs above the BMP), and the
character itself for printable ASCII. -/
def pyJsonEscapeChar (c : Char) : List Char :=
  if c = '"' then ['\\', '"']
  else if c = '\\' then ['\\', '\\']
  else if c = '\n' then ['\\', 'n']
  else if c = '\r' then ['\\', 'r']
  else if c = '\t' then ['\\', 't']
  else if c = Char.ofNat 8 then ['\\', 'b']
  else if c = Char.ofNat 12 then ['\\', 'f']
  else if c.toNat < 32 then u16Escape c.toNat
  else if c.toNat < 127 then [c]
  else if c.toNat < 65536 then u16Escape c.toNat
  else u16Escape (55296 + (c.toNat - 65536) / 1024) ++
    u16Escape (56320 + (c.toNat - 65536) % 1024)

/-- Serialization of a Python `str` by `json.dump`. -/
def pyJsonStr (s : List Char) : List Char :=
  '"' :: (s.map pyJsonEscapeChar).flatten ++ ['"']

/-- Serialization of the one-key dict `{'inputs': s}` by
`json.dump({'inputs': str(row)}, outfile)` (default separators). -/
def dumpsInputs (s : List Char) : List Char :=
  "\x7b\"inputs\": ".data ++ pyJsonStr s ++ "\x7d".data

/-- The dict `{'inputs': ...}` appended to `data_json` on each iteration. -/
structure InputsObj where
  inputs : List Char
deriving DecidableEq, Repr

/-- State of the preprocessing cell: the characters written to
`tweet_data.jsonl` so far, and the `data_json` list. -/
structure TweetState where
  outfile : List Char
  data_json : List InputsObj
deriving DecidableEq, Repr

/-- One iteration of `for row in tweet_text:` in the batch-transform
notebook: `row = row.replace("@","")`, then `json.dump({'inputs': str(row)},
outfile)`, then `data_json.append({'inputs': str(row)})`, then
`outfile.write('\n')`. -/
def writeTweet (st : TweetState) (row : List Char) : TweetState :=
  let r := row.filter (fun c => c ≠ '@')
  { outfile := st.outfile ++ dumpsInputs r ++ ['\n'],
    data_json := st.data_json ++ [⟨r⟩] }

/-- The whole preprocessing loop, started from an empty file and
`data_json = []`. -/
def preprocessTweets (tweets : List (List Char)) : TweetState :=
  tweets.foldl writeTweet ⟨[], []⟩

/-- Text lines of a character stream: split at each `'\n'`. -/
def splitLines : List Char → List (List Char)
  | [] => [[]]
  | c :: cs =>
    if c = '\n' then [] :: splitLines cs
    else
      match splitLines cs with
      | [] => [[c]]
      | l :: ls => (c :: l) :: ls

theorem hexDigit_ne_newline (n : Nat) (h : n < 16) : hexDigit n ≠ '\n' := by
  revert h; revert n; decide

theorem newline_not_mem_u16Escape (n : Nat) : '\n' ∉ u16Escape n := by
  intro hmem
  rw [u16Escape] at hmem
  simp only [List.mem_cons, List.not_mem_nil, or_false] at hmem
  rcases hmem with h | h | h | h | h | h
  · exact absurd h (by decide)
  · exact absurd h (by decide)
  all_goals exact hexDigit_ne_newline _ (Nat.mod_lt _ (by decide)) h.symm

theorem newline_not_mem_escapeChar (c : Char) : '\n' ∉ pyJsonEscapeChar c := by
  unfold pyJsonEscapeChar
  split
  · decide
  split
  · decide
  split
  · decide
  split
  · decide
  split
  · decide
  split
  · decide
  split
  · decide
  split
  · exact newline_not_mem_u16Escape _
  split
  · rename_i h32 _
    intro hmem
    rw [List.mem_singleton] at hmem
    rw [← hmem] at h32
    exact h32 (by decide)
  split
  · exact newline_not_mem_u16Escape _
  · intro hmem
    rcases List.mem_append.mp hmem with h | h
    · exact newline_not_mem_u16Escape _ h
    · exact newline_not_mem_u16Escape _ h

theorem newline_not_mem_dumpsInputs (s : List Char) : '\n' ∉ dumpsInputs s := by
  intro hmem
  rw [dumpsInputs] at hmem
  rcases List.mem_append.mp hmem with h | h
  · rcases List.mem_append.mp h with h | h
    · revert h; decide
    · rw [pyJsonStr] at h
      rcases List.mem_cons.mp h with h | h
      · exact absurd h (by decide)
      rcases List.mem_append.mp h with h | h
      · rcases List.mem_flatten.mp h with ⟨l, hl, hnl⟩
        rcases List.mem_map.mp hl with ⟨c, _, rfl⟩
        exact newline_not_mem_escapeChar c hnl
      · revert h; decide
  · revert h; decide

theorem splitLines_append (a r : List Char) (ha : '\n' ∉ a) :
    splitLines (a ++ '\n' :: r) = a :: splitLines r := by
  induction a with
  | nil => simp [splitLines]
  | cons c cs ih =>
    have hc : c ≠ '\n' := fun h => ha (h ▸ List.mem_cons_self c cs)
    have hcs : '\n' ∉ cs := fun h => ha (List.mem_cons_of_mem c h)
    rw [List.cons_append]
    simp only [splitLines, List.append_eq]
    rw [ih hcs, if_neg hc]

theorem preprocessTweets_foldl (tweets : List (List Char)) (st : TweetState) :
    tweets.foldl writeTweet st =
      ⟨st.outfile ++
        (tweets.map (fun row => dumpsInputs (row.filter (fun c => c ≠ '@')) ++ ['\n'])).flatten,
       st.data_json ++ tweets.map (fun row => ⟨row.filter (fun c => c ≠ '@')⟩)⟩ := by
  induction tweets generalizing st with
  | nil => simp
  | cons t ts ih =>
    rw [List.foldl_cons, ih]
    simp [writeTweet, List.append_assoc]

theorem splitLines_join (pieces : List (List Char))
    (h : ∀ p ∈ pieces, '\n' ∉ p) :
    splitLines ((pieces.map (fun p => p ++ ['\n'])).flatten) = pieces ++ [[]] := by
  induction pieces with
  | nil => simp [splitLines]
  | cons p ps ih =>
    have hp : '\n' ∉ p := h p (List.mem_cons_self p ps)
    have hps : ∀ q ∈ ps, '\n' ∉ q := fun q hq => h q (List.mem_cons_of_mem p hq)
    simp only [List.map_cons, List.flatten_cons, List.append_assoc, List.singleton_append]
    rw [splitLines_append p _ hp, ih hps, List.cons_append]

theorem count_newline_flatten (pieces : List (List Char))
    (h : ∀ p ∈ pieces, '\n' ∉ p) :
    ((pieces.map (fun p => p ++ ['\n'])).flatten).count '\n' = pieces.length := by
  induction pieces with
  | nil => rfl
  | cons p ps ih =>
    have hp : '\n' ∉ p := h p (List.mem_cons_self p ps)
    have hps : ∀ q ∈ ps, '\n' ∉ q := fun q hq => h q (List.mem_cons_of_mem p hq)
    simp only [List.map_cons, List.flatten_cons, List.count_append, ih hps,
      List.count_eq_zero.mpr hp, List.length_cons]
    simp [List.count_cons]
    omega

/-- C4: the JSON Lines preprocessing writes, for each tweet in order, the
single-line object `{"inputs": s}` where `s` is the tweet with every `'@'`
removed; the file's lines are exactly these objects followed by the empty
tail after the final newline; `data_json` holds the same objects, element
for element and in order (its serialization matches every written line);
and the number of newline-terminated lines equals the number of tweets. -/
theorem jsonl_preprocessing_contract (tweets : List (List Char)) :
    (preprocessTweets tweets).data_json =
        tweets.map (fun row => ⟨row.filter (fun c => c ≠ '@')⟩) ∧
    splitLines (preprocessTweets tweets).outfile =
        tweets.map (fun row => dumpsInputs (row.filter (fun c => c ≠ '@'))) ++ [[]] ∧
    (splitLines (preprocessTweets tweets).outfile).dropLast =
        (preprocessTweets tweets).data_json.map (fun o => dumpsInputs o.inputs) ∧
    (preprocessTweets tweets).outfile.count '\n' = tweets.length := by
  have hfold := preprocessTweets_foldl tweets ⟨[], []⟩
  have hdata : (preprocessTweets tweets).data_json =
      tweets.map (fun row => ⟨row.filter (fun c => c ≠ '@')⟩) := by
    rw [preprocessTweets, hfold]
    rfl
  have hout : (preprocessTweets tweets).outfile =
      ((tweets.map (fun row => dumpsInputs (row.filter (fun c => c ≠ '@')))).map
        (fun p => p ++ ['\n'])).flatten := by
    rw [preprocessTweets, hfold, List.map_map]
    rfl
  have hnonl : ∀ p ∈ tweets.map (fun row => dumpsInputs (row.filter (fun c => c ≠ '@'))),
      '\n' ∉ p := by
    intro p hp
    rcases List.mem_map.mp hp with ⟨row, _, rfl⟩
    exact newline_not_mem_dumpsInputs _
  have hsplit : splitLines (preprocessTweets tweets).outfile =
      tweets.map (fun row => dumpsInputs (row.filter (fun c => c ≠ '@'))) ++ [[]] := by
    rw [hout, splitLines_join _ hnonl]
  refine ⟨hdata, hsplit, ?_, ?_⟩
  · rw [hsplit, hdata, List.map_map]
    rw [List.dropLast_concat]
    rfl
  · rw [hout, count_newline_flatten _ hnonl, List.length_map]

end JsonLines

namespace MultipleInvocations

/-- The f-string `f"input/test_point_{i}.libsvm"` of the multiple-invocation
loop (Python's `str` of a non-negative int is its decimal digits). -/
def input_file (i : Nat) : List Char :=
  "input/test_point_".data ++ (Nat.repr i).data ++ ".libsvm".data

/-- Embedding of
`inferences = []; for i in range(25): ...; inferences += [(input_file, output_location)]`
from the asynchronous-inference notebook.  `outputs i` is the
`output_path` of the `async_response` returned by the i-th
`predict_async` call. -/
def inferences (outputs : Nat → List Char) : List (List Char × List Char) :=
  (List.range 25).foldl (fun acc i => acc ++ [(input_file i, outputs i)]) []

/-- The sequence of output locations passed to `get_output` by the result
loop `for input_file, output_location in inferences:`. -/
def resultLoopPollOrder (infs : List (List Char × List Char)) : List (List Char) :=
  infs.map (fun p => p.2)

theorem foldl_append_singleton {α β : Type} (f : α → β) (l : List α) (init : List β) :
    l.foldl (fun acc i => acc ++ [f i]) init = init ++ l.map f := by
  induction l generalizing init with
  | nil => simp
  | cons x xs ih => simp [ih, List.append_assoc]

theorem inferences_eq_map (outputs : Nat → List Char) :
    inferences outputs = (List.range 25).map (fun i => (input_file i, outputs i)) := by
  rw [inferences, foldl_append_singleton, List.nil_append]

/-- C5: the multiple-invocation loop yields exactly 25 (input, output)
pairs in invocation order; the i-th pair is the input path
`input/test_point_{i}.libsvm` with the output location of the i-th
`predict_async` call; and the result loop polls the output locations in
that same order. -/
theorem multiple_invocations_contract (outputs : Nat → List Char) :
    (inferences outputs).length = 25 ∧
    (∀ i, i < 25 → (inferences outputs)[i]? = some (input_file i, outputs i)) ∧
    resultLoopPollOrder (inferences outputs) = (List.range 25).map outputs := by
  refine ⟨?_, ?_, ?_⟩
  · rw [inferences_eq_map, List.length_map, List.length_range]
  · intro i hi
    rw [inferences_eq_map, List.getElem?_map, List.getElem?_range hi]
    rfl
  · rw [resultLoopPollOrder, inferences_eq_map, List.map_map]
    rfl

theorem multiple_invocations_contract_witness :
    (inferences (fun i => (Nat.repr i).data))[3]? =
      some (input_file 3, (Nat.repr 3).data) :=
  (multiple_invocations_contract (fun i => (Nat.repr i).data)).2.1 3 (by decide)

end MultipleInvocations

namespace WorkflowTrace

/-- The remote calls made by the asynchronous-inference notebook, in the
order its cells appear (the notebook is a linear script). -/
inductive ApiCall where
  | uploadModelArtifact
  | deployEndpoint
  | registerScalableTarget
  | putScalingPolicy
  | uploadInput (i : Nat)
  | invokeEndpoint (i : Nat)
  | pollOutput (i : Nat)
  | deregisterScalableTarget
  | deleteEndpoint
deriving DecidableEq, Repr

/-- Trace of the asynchronous-inference notebook, cell by cell: upload the
model artifact and deploy the endpoint (sections 1.1–1.3), register the
scalable target and put the scaling policy (1.4), the single invocation
with `test_point_0` and its poll (2.1–2.2), the 25-iteration invocation
loop followed by its polling loop (2.3), then clean-up: deregister the
scalable target, delete the endpoint (section 3). -/
def asyncWorkflowTrace : List ApiCall :=
  [.uploadModelArtifact, .deployEndpoint, .registerScalableTarget, .putScalingPolicy,
    .uploadInput 0, .invokeEndpoint 0, .pollOutput 0] ++
  ((List.range 25).map (fun i => [ApiCall.uploadInput i, ApiCall.invokeEndpoint i])).flatten ++
  (List.range 25).map (fun i => ApiCall.pollOutput i) ++
  [.deregisterScalableTarget, .deleteEndpoint]

/-- Calls that create or set up resources (model/endpoint creation and
autoscaling registration). -/
def isCreate : ApiCall → Bool
  | .uploadModelArtifact => true
  | .deployEndpoint => true
  | .registerScalableTarget => true
  | .putScalingPolicy => true
  | _ => false

/-- The calls that create the model and deploy it as an endpoint. -/
def isDeploy : ApiCall → Bool
  | .uploadModelArtifact => true
  | .deployEndpoint => true
  | _ => false

def isInvoke : ApiCall → Bool
  | .invokeEndpoint _ => true
  | _ => false

def isCleanup : ApiCall → Bool
  | .deregisterScalableTarget => true
  | .deleteEndpoint => true
  | _ => false

def isDeregister : ApiCall → Bool
  | .deregisterScalableTarget => true
  | _ => false

def isDeleteEndpoint : ApiCall → Bool
  | .deleteEndpoint => true
  | _ => false

/-- Indices at which an event satisfying `p` occurs in the trace. -/
def eventIdxs (t : List ApiCall) (p : ApiCall → Bool) : List Nat :=
  (t.enum.filter (fun x => p x.2)).map (fun x => x.1)

/-- Every `p`-event in the trace occurs strictly before every `q`-event. -/
def allBefore (t : List ApiCall) (p q : ApiCall → Bool) : Bool :=
  (eventIdxs t p).all (fun i => (eventIdxs t q).all (fun j => decide (i < j)))

/-- C7: in the asynchronous-endpoint workflow the model is created and
deployed before any invocation, every invocation precedes clean-up, the
scalable target is deregistered before the endpoint is deleted, and no
create call follows a clean-up call. -/
theorem async_workflow_call_order :
    allBefore asyncWorkflowTrace isDeploy isInvoke = true ∧
    allBefore asyncWorkflowTrace isInvoke isCleanup = true ∧
    allBefore asyncWorkflowTrace isDeregister isDeleteEndpoint = true ∧
    allBefore asyncWorkflowTrace isCreate isCleanup = true := by
  decide

end WorkflowTrace

namespace InferencePipeline

/-- The two fitted models of the inference-pipeline notebook:
`sklearn_preprocessor.create_model()` and `ll_estimator.create_model()`. -/
inductive ModelRef where
  | sklearnPreprocessingModel
  | linearLearnerModel
deriving DecidableEq, Repr

/-- The `PipelineModel(...)` constructor call's arguments. -/
structure PipelineModelDef where
  name : List Char
  role : List Char
  models : List ModelRef
deriving DecidableEq, Repr

/-- A `sm_model.deploy(...)` call. -/
structure DeployCall where
  model : PipelineModelDef
  initial_instance_count : Nat
  instance_type : List Char
  endpoint_name : List Char
deriving DecidableEq, Repr

/-- Embedding of
`sm_model = PipelineModel(name=model_name, role=role, models=[scikit_learn_inferencee_model, linear_learner_model])`
with `model_name = "inference-pipeline-" + timestamp_str`. -/
def sm_model (timestamp_str role : List Char) : PipelineModelDef :=
  { name := "inference-pipeline-".data ++ timestamp_str,
    role := role,
    models := [.sklearnPreprocessingModel, .linearLearnerModel] }

/-- The pipeline-setup cell's trace: the `PipelineModel` objects it
constructs and the `deploy` calls it makes — one of each, the deploy with
`initial_instance_count=1` and
`endpoint_name = "inference-pipeline-ep-" + timestamp_str`. -/
def pipelineCellTrace (timestamp_str role : List Char) :
    List PipelineModelDef × List DeployCall :=
  ([sm_model timestamp_str role],
   [{ model := sm_model timestamp_str role,
      initial_instance_count := 1,
      instance_type := "ml.c4.xlarge".data,
      endpoint_name := "inference-pipeline-ep-".data ++ timestamp_str }])

/-- C8: the pipeline-setup cell constructs exactly one `PipelineModel`;
its models list has exactly two entries, the fitted scikit-learn
preprocessing model first and the linear-learner model second; and the
cell deploys that one model behind a single endpoint. -/
theorem pipeline_model_contract (timestamp_str role : List Char) :
    (pipelineCellTrace timestamp_str role).1.length = 1 ∧
    (pipelineCellTrace timestamp_str role).1 = [sm_model timestamp_str role] ∧
    (sm_model timestamp_str role).models.length = 2 ∧
    (sm_model timestamp_str role).models =
      [.sklearnPreprocessingModel, .linearLearnerModel] ∧
    (pipelineCellTrace timestamp_str role).2.length = 1 ∧
    ((pipelineCellTrace timestamp_str role).2.map (fun d => d.model)) =
      [sm_model timestamp_str role] :=
  ⟨rfl, rfl, rfl, rfl, rfl, rfl⟩

end InferencePipeline

namespace PyStr

/-- Python's `str.split(sep)` for a single-character separator. -/
def splitOnChar (sep : Char) : List Char → List (List Char)
  | [] => [[]]
  | c :: cs =>
    if c = sep then [] :: splitOnChar sep cs
    else
      match splitOnChar sep cs with
      | [] => [[c]]
      | l :: ls => (c :: l) :: ls

theorem splitOnChar_append (sep : Char) (a r : List Char) (ha : sep ∉ a) :
    splitOnChar sep (a ++ sep :: r) = a :: splitOnChar sep r := by
  induction a with
  | nil => simp [splitOnChar]
  | cons c cs ih =>
    have hc : c ≠ sep := fun h => ha (h ▸ List.mem_cons_self c cs)
    have hcs : sep ∉ cs := fun h => ha (List.mem_cons_of_mem c h)
    rw [List.cons_append]
    simp only [splitOnChar, List.append_eq]
    rw [ih hcs, if_neg hc]

theorem splitOnChar_no_sep (sep : Char) (a : List Char) (ha : sep ∉ a) :
    splitOnChar sep a = [a] := by
  induction a with
  | nil => rfl
  | cons c cs ih =>
    have hc : c ≠ sep := fun h => ha (h ▸ List.mem_cons_self c cs)
    have hcs : sep ∉ cs := fun h => ha (List.mem_cons_of_mem c h)
    simp only [splitOnChar]
    rw [ih hcs, if_neg hc]

/-- Python's `<` on strings: lexicographic comparison of code points,
with a proper prefix comparing less. -/
def pyStrLt : List Char → List Char → Bool
  | [], [] => false
  | [], _ :: _ => true
  | _ :: _, [] => false
  | a :: as, b :: bs =>
    if a < b then true
    else if b < a then false
    else pyStrLt as bs

end PyStr

namespace VersionGuards

/-- The guard `sagemaker.__version__ < '2.48.1'` of the feature-store
notebook (Python string comparison). -/
def sagemakerGuardTriggers (v : List Char) : Bool :=
  PyStr.pyStrLt v "2.48.1".data

/-- The guard `boto3.__version__ < '1.24.23'` of the feature-store
notebook (Python string comparison). -/
def boto3GuardTriggers (v : List Char) : Bool :=
  PyStr.pyStrLt v "1.24.23".data

/-- Decimal digits to a natural number. -/
def digitsToNat (s : List Char) : Nat :=
  s.foldl (fun acc c => acc * 10 + (c.toNat - 48)) 0

/-- Numeric reading of a dotted version string: the list of its
dot-separated components as numbers. -/
def parseVersion (v : List Char) : List Nat :=
  (PyStr.splitOnChar '.' v).map digitsToNat

/-- Numeric (component-wise) ordering of parsed versions. -/
def numLt : List Nat → List Nat → Bool
  | [], [] => false
  | [], _ :: _ => true
  | _ :: _, [] => false
  | a :: as, b :: bs =>
    if a < b then true
    else if b < a then false
    else numLt as bs

/-- C9: the SDK version guards compare version strings lexicographically,
so the version `2.100.0` — numerically at or above the `2.48.1` threshold
— wrongly triggers the sagemaker reinstall, while `2.5.0` — numerically
below it — does not; likewise `1.100.0` wrongly triggers the boto3
reinstall while the numerically lower `1.3.0` does not. -/
theorem version_guards_are_lexicographic :
    (sagemakerGuardTriggers "2.100.0".data = true ∧
      numLt (parseVersion "2.100.0".data) (parseVersion "2.48.1".data) = false) ∧
    (sagemakerGuardTriggers "2.5.0".data = false ∧
      numLt (parseVersion "2.5.0".data) (parseVersion "2.48.1".data) = true) ∧
    (boto3GuardTriggers "1.100.0".data = true ∧
      numLt (parseVersion "1.100.0".data) (parseVersion "1.24.23".data) = false) ∧
    (boto3GuardTriggers "1.3.0".data = false ∧
      numLt (parseVersion "1.3.0".data) (parseVersion "1.24.23".data) = true) := by
  decide

end VersionGuards

namespace FeatureSearch

/-- One entry of the `Filters` list of the search expression. -/
structure SearchFilter where
  Name : List Char
  Operator : List Char
  Value : List Char
deriving DecidableEq, Repr

/-- The `SearchExpression` argument of `sagemaker_client.search`. -/
structure SearchExpression where
  Filters : List SearchFilter
  Operator : List Char
deriving DecidableEq, Repr

/-- One `sagemaker_client.search(...)` call's arguments. -/
structure SearchRequest where
  Resource : List Char
  Expression : SearchExpression
deriving DecidableEq, Repr

/-- The search request built by `search_features_using_string` in the
feature-store notebook: resource `FeatureMetadata`, and the `Or` of three
`Contains` filters on `FeatureName`, `Description` and `AllParameters`,
each carrying the search string. -/
def searchRequest (search_string : List Char) : SearchRequest :=
  { Resource := "FeatureMetadata".data,
    Expression :=
      { Filters :=
          [{ Name := "FeatureName".data, Operator := "Contains".data, Value := search_string },
           { Name := "Description".data, Operator := "Contains".data, Value := search_string },
           { Name := "AllParameters".data, Operator := "Contains".data, Value := search_string }],
        Operator := "Or".data } }

/-- A pandas data frame, seen as its ordered columns: a column name and
that column's payload. -/
abbrev Frame (α : Type) := List (List Char × α)

/-- `df.columns = df.columns.map(lambda col: col.split(".")[1])`: each
column name is replaced by the second segment of its dot-split; a name
without a second segment raises `IndexError` (modelled as `none`). -/
def renameCols {α : Type} : Frame α → Option (Frame α)
  | [] => some []
  | c :: cs =>
    match (PyStr.splitOnChar '.' c.1)[1]? with
    | none => none
    | some n =>
      match renameCols cs with
      | none => none
      | some rest => some ((n, c.2) :: rest)

/-- `df.drop(name, axis=1)`: remove the column of that name; pandas raises
`KeyError` (modelled as `none`) when no column has the name. -/
def dropColumn {α : Type} (name : List Char) (f : Frame α) : Option (Frame α) :=
  if f.any (fun c => c.1 == name) then some (f.filter (fun c => !(c.1 == name)))
  else none

/-- Embedding of `search_features_using_string`: build the search
expression, issue the one `sagemaker_client.search` call, then post-process
the response's normalized frame (`svc req` stands for
`pd.json_normalize(response['Results'], max_level=1)`): rename the columns
to the segment after the dot and drop `FeatureGroupArn`.  Returns the list
of search calls issued and the resulting frame. -/
def search_features_using_string {α : Type} (svc : SearchRequest → Frame α)
    (search_string : List Char) : List SearchRequest × Option (Frame α) :=
  let req := searchRequest search_string
  ([req], (renameCols (svc req)).bind (dropColumn "FeatureGroupArn".data))

theorem renameCols_map_prefixed {α : Type} (base : Frame α)
    (hnodot : ∀ c ∈ base, '.' ∉ c.1) :
    renameCols (base.map (fun c => ("FeatureMetadata.".data ++ c.1, c.2))) = some base := by
  induction base with
  | nil => rfl
  | cons c cs ih =>
    have hc : '.' ∉ c.1 := hnodot c (List.mem_cons_self c cs)
    have hcs : ∀ d ∈ cs, '.' ∉ d.1 := fun d hd => hnodot d (List.mem_cons_of_mem c hd)
    have hsplit : PyStr.splitOnChar '.' ("FeatureMetadata.".data ++ c.1) =
        ["FeatureMetadata".data, c.1] := by
      have h1 : "FeatureMetadata.".data ++ c.1 = "FeatureMetadata".data ++ '.' :: c.1 := by
        rw [show "FeatureMetadata.".data = "FeatureMetadata".data ++ ['.'] from rfl,
          List.append_assoc, List.singleton_append]
      rw [h1, PyStr.splitOnChar_append '.' _ _ (by decide),
        PyStr.splitOnChar_no_sep '.' c.1 hc]
    simp only [List.map_cons, renameCols, hsplit, ih hcs]
    rfl

/-- C6: `search_features_using_string` issues exactly one search call, on
resource `FeatureMetadata`, whose expression is the `Or` of exactly three
`Contains` filters — on `FeatureName`, `Description` and `AllParameters` —
each carrying the search string; and (for a response whose normalized
columns are `FeatureMetadata.`-prefixed and include `FeatureGroupArn`) it
returns the result table with the `FeatureGroupArn` column removed and the
other columns kept in order. -/
theorem search_features_contract {α : Type} (svc : SearchRequest → Frame α)
    (s : List Char) (base : Frame α)
    (hresp : svc (searchRequest s) =
      base.map (fun c => ("FeatureMetadata.".data ++ c.1, c.2)))
    (hnodot : ∀ c ∈ base, '.' ∉ c.1)
    (hmem : base.any (fun c => c.1 == "FeatureGroupArn".data) = true) :
    (search_features_using_string svc s).1 = [searchRequest s] ∧
    (searchRequest s).Resource = "FeatureMetadata".data ∧
    (searchRequest s).Expression.Operator = "Or".data ∧
    ((searchRequest s).Expression.Filters.map (fun f => f.Name) =
      ["FeatureName".data, "Description".data, "AllParameters".data]) ∧
    (∀ f ∈ (searchRequest s).Expression.Filters,
      f.Operator = "Contains".data ∧ f.Value = s) ∧
    (search_features_using_string svc s).2 =
      some (base.filter (fun c => !(c.1 == "FeatureGroupArn".data))) := by
  refine ⟨rfl, rfl, rfl, rfl, ?_, ?_⟩
  · intro f hf
    simp only [searchRequest, List.mem_cons, List.not_mem_nil, or_false] at hf
    rcases hf with rfl | rfl | rfl <;> exact ⟨rfl, rfl⟩
  · show (renameCols (svc (searchRequest s))).bind (dropColumn "FeatureGroupArn".data) = _
    rw [hresp, renameCols_map_prefixed base hnodot, Option.some_bind, dropColumn, if_pos hmem]

theorem search_features_contract_witness :
    (search_features_using_string
      (fun _ => [("FeatureMetadata.FeatureName".data, ([] : List (List Char))),
                 ("FeatureMetadata.FeatureGroupArn".data, [])])
      "married".data).2 = some [("FeatureName".data, [])] :=
  (search_features_contract
    (fun _ => [("FeatureMetadata.FeatureName".data, ([] : List (List Char))),
               ("FeatureMetadata.FeatureGroupArn".data, [])])
    "married".data
    [("FeatureName".data, []), ("FeatureGroupArn".data, [])]
    (by decide) (by decide) (by decide)).2.2.2.2.2

end FeatureSearch

namespace FeaturizerScript

/-- Outcome of a Python call: a normal result, an exception raised with
a constructed exception object, or a `NameError` because the name in the
`raise` expression is not bound in any enclosing scope. -/
inductive PyResult (α : Type) where
  | ok (a : α)
  | raised (exc : List Char) (msg : List Char)
  | nameError (name : List Char)
deriving DecidableEq, Repr

/-- Evaluation of `raise Name(msg)` under an environment of bound names:
looking up an unbound name raises `NameError` before the exception is
constructed. -/
def raiseStmt {α : Type} (env : List (List Char)) (name msg : List Char) : PyResult α :=
  if name ∈ env then .raised name msg else .nameError name

/-- The names bound by the Python builtins that could resolve an exception
class: the built-in exception and warning classes of Python 3. -/
def pythonBuiltinExceptionNames : List (List Char) :=
  (["BaseException", "Exception", "ArithmeticError", "AssertionError",
    "AttributeError", "BlockingIOError", "BrokenPipeError", "BufferError",
    "BytesWarning", "ChildProcessError", "ConnectionAbortedError",
    "ConnectionError", "ConnectionRefusedError", "ConnectionResetError",
    "DeprecationWarning", "EOFError", "EnvironmentError", "FileExistsError",
    "FileNotFoundError", "FloatingPointError", "FutureWarning",
    "GeneratorExit", "IOError", "ImportError", "ImportWarning",
    "IndentationError", "IndexError", "InterruptedError",
    "IsADirectoryError", "KeyError", "KeyboardInterrupt", "LookupError",
    "MemoryError", "ModuleNotFoundError", "NameError",
    "NotADirectoryError", "NotImplementedError", "OSError",
    "OverflowError", "PendingDeprecationWarning", "PermissionError",
    "ProcessLookupError", "RecursionError", "ReferenceError",
    "ResourceWarning", "RuntimeError", "RuntimeWarning",
    "StopAsyncIteration", "StopIteration", "SyntaxError", "SyntaxWarning",
    "SystemError", "SystemExit", "TabError", "TimeoutError", "TypeError",
    "UnboundLocalError", "UnicodeDecodeError", "UnicodeEncodeError",
    "UnicodeError", "UnicodeTranslateError", "UnicodeWarning",
    "UserWarning", "ValueError", "Warning",
    "ZeroDivisionError"] : List String).map String.data

/-- The module-level names bound in `sklearn_abalone_featurizer.py`: its
imports and its own definitions. -/
def featurizerModuleNames : List (List Char) :=
  (["print_function", "time", "sys", "StringIO", "os", "shutil", "argparse",
    "csv", "json", "joblib", "np", "pd", "ColumnTransformer",
    "make_column_selector", "SimpleImputer", "make_pipeline", "Binarizer",
    "StandardScaler", "OneHotEncoder", "content_types", "encoders", "env",
    "modules", "transformer", "worker", "feature_columns_names",
    "label_column", "feature_columns_dtype", "label_column_dtype",
    "merge_two_dicts", "input_fn", "output_fn", "predict_fn",
    "model_fn"] : List String).map String.data

/-- All names a `raise`d exception class could resolve to inside
`output_fn`: the module's globals and the builtins. -/
def featurizerEnv : List (List Char) :=
  featurizerModuleNames ++ pythonBuiltinExceptionNames

/-- A `worker.Response(body, mimetype=...)` value. -/
structure WorkerResponse where
  body : List Char
  mimetype : List Char
deriving DecidableEq, Repr

/-- Join pieces with a separator. -/
def joinSep (sep : List Char) : List (List Char) → List Char
  | [] => []
  | [x] => x
  | x :: y :: rest => x ++ sep ++ joinSep sep (y :: rest)

/-- `json.dumps({"instances": [{"features": row}, ...]})` for numeric
prediction rows (the JSON branch of `output_fn`). -/
def dumpsInstances (prediction : List (List Int)) : List Char :=
  "\x7b\"instances\": [".data ++
    joinSep ", ".data (prediction.map (fun row =>
      "\x7b\"features\": [".data ++
        joinSep ", ".data (row.map (fun n => (toString n).data)) ++ "]\x7d".data)) ++
  "]\x7d".data

/-- `encoders.encode(prediction, "text/csv")`: comma-separated values,
one line per row (the CSV branch of `output_fn`). -/
def csvEncode (prediction : List (List Int)) : List Char :=
  joinSep "\n".data (prediction.map (fun row =>
    joinSep ",".data (row.map (fun n => (toString n).data))))

/-- Embedding of `output_fn(prediction, accept)` of
`sklearn_abalone_featurizer.py`: `application/json` and `text/csv` produce
a `worker.Response` with the accept value as mimetype; any other accept
value reaches `raise RuntimeException("{} accept type is not supported by
this script.".format(accept))`, whose name lookup happens in
`featurizerEnv`.  The numeric prediction array is embedded as rows of
integers. -/
def output_fn (prediction : List (List Int)) (accept : List Char) :
    PyResult WorkerResponse :=
  if accept = "application/json".data then
    .ok { body := dumpsInstances prediction, mimetype := accept }
  else if accept = "text/csv".data then
    .ok { body := csvEncode prediction, mimetype := accept }
  else
    raiseStmt featurizerEnv "RuntimeException".data
      (accept ++ " accept type is not supported by this script.".data)

/-- C10: for every accept value other than `application/json` and
`text/csv`, `output_fn` fails with a `NameError` — the name
`RuntimeException` is bound neither in the module nor in the builtins —
instead of raising the intended unsupported-accept-type exception, while
the two listed accept values each produce a response. -/
theorem output_fn_unknown_accept_is_name_error
    (prediction : List (List Int)) (accept : List Char)
    (h1 : accept ≠ "application/json".data) (h2 : accept ≠ "text/csv".data) :
    output_fn prediction accept = .nameError "RuntimeException".data ∧
    "RuntimeException".data ∉ featurizerEnv ∧
    (∀ msg, output_fn prediction accept ≠ .raised "RuntimeException".data msg) ∧
    (∃ r, output_fn prediction "application/json".data = .ok r) ∧
    (∃ r, output_fn prediction "text/csv".data = .ok r) := by
  have hmem : "RuntimeException".data ∉ featurizerEnv := by decide
  have hname : output_fn prediction accept = .nameError "RuntimeException".data := by
    rw [output_fn, if_neg h1, if_neg h2, raiseStmt, if_neg hmem]
  refine ⟨hname, hmem, ?_, ?_, ?_⟩
  · intro msg hcontra
    rw [hname] at hcontra
    exact PyResult.noConfusion hcontra
  · exact ⟨{ body := dumpsInstances prediction, mimetype := "application/json".data },
      by rw [output_fn, if_pos rfl]⟩
  · exact ⟨{ body := csvEncode prediction, mimetype := "text/csv".data },
      by rw [output_fn, if_neg (by decide), if_pos rfl]⟩

theorem output_fn_unknown_accept_is_name_error_witness :
    output_fn [[(1 : Int)]] "text/plain".data =
      PyResult.nameError "RuntimeException".data :=
  (output_fn_unknown_accept_is_name_error [[(1 : Int)]] "text/plain".data
    (by decide) (by decide)).1

end FeaturizerScript
